import Mathlib

/-!
Verification of the wuffs base runtime contract (`core-public.h`): the
status (outcome) protocol, saturating unsigned arithmetic, 1-D slices with
clamped sub-windowing, and the packed version identifier.

Modelling conventions:
* C unsigned w-bit values are `Nat` together with a `< 2 ^ w` bound where it
  matters; wraparound is explicit `% 2 ^ w`.
* A `wuffs_base__status` is `const char*`: either `NULL` (`none`) or a
  pointer to a statically allocated string (`some s`).  Dereferencing the
  first byte of a NUL-terminated C string yields `'\0'` on the empty string,
  modelled by `cstr_first`.
* Slice pointers are element-indexed addresses (`Nat`); C pointer
  arithmetic `s.ptr + i` on a `T*` advances by elements, matching `Nat`
  addition here.  `size_t` is modelled at the 64-bit word size.
-/

namespace Wuffs

/-- Status values: `typedef const char* wuffs_base__status`; `NULL` means OK,
otherwise a pointer to a statically allocated message string. -/
abbrev wuffs_base__status : Type := Option String

/-- First byte of a NUL-terminated C string: the first character, or `'\0'`
for the empty string. -/
def cstr_first (s : String) : Char := s.data.headD (Char.ofNat 0)

/-- C: `return (z == NULL) || ((*z != '$') && (*z != '?'));` -/
def wuffs_base__status__is_complete (z : wuffs_base__status) : Bool :=
  match z with
  | none => true
  | some s => !(cstr_first s == '$') && !(cstr_first s == '?')

/-- C: `return z && (*z == '?');` -/
def wuffs_base__status__is_error (z : wuffs_base__status) : Bool :=
  match z with
  | none => false
  | some s => cstr_first s == '?'

/-- C: `return z == NULL;` -/
def wuffs_base__status__is_ok (z : wuffs_base__status) : Bool :=
  match z with
  | none => true
  | some _ => false

/-- C: `return z && (*z == '$');` -/
def wuffs_base__status__is_suspension (z : wuffs_base__status) : Bool :=
  match z with
  | none => false
  | some s => cstr_first s == '$'

/-- C: `return z && (*z != '$') && (*z != '?');` -/
def wuffs_base__status__is_warning (z : wuffs_base__status) : Bool :=
  match z with
  | none => false
  | some s => !(cstr_first s == '$') && !(cstr_first s == '?')

/-- Width-generic form of the C saturating addition
`res = x + y; res |= -(res < x); return res;` on unsigned w-bit values:
the sum wraps modulo `2 ^ w`, and `-(res < x)` is the all-ones mask
(`2 ^ w - 1`) exactly when the wrapped sum dropped below `x`. -/
def sat_add_gen (w x y : Nat) : Nat :=
  let res := (x + y) % 2 ^ w
  res ||| (if res < x then 2 ^ w - 1 else 0)

/-- Width-generic form of the C saturating subtraction
`res = x - y; res &= -(res <= x); return res;` on unsigned w-bit values:
`x - y` wraps modulo `2 ^ w` (written `(x + (2 ^ w - y)) % 2 ^ w`, which
agrees with C's unsigned wraparound for `y < 2 ^ w`), and `-(res <= x)` is
the all-ones mask exactly when no underflow occurred. -/
def sat_sub_gen (w x y : Nat) : Nat :=
  let res := (x + (2 ^ w - y)) % 2 ^ w
  res &&& (if res ≤ x then 2 ^ w - 1 else 0)

/-- C: `wuffs_base__u8__sat_add`, instantiating the common body at w = 8. -/
def wuffs_base__u8__sat_add (x y : Nat) : Nat := sat_add_gen 8 x y

/-- C: `wuffs_base__u16__sat_add`, instantiating the common body at w = 16. -/
def wuffs_base__u16__sat_add (x y : Nat) : Nat := sat_add_gen 16 x y

/-- C: `wuffs_base__u32__sat_add`, instantiating the common body at w = 32. -/
def wuffs_base__u32__sat_add (x y : Nat) : Nat := sat_add_gen 32 x y

/-- C: `wuffs_base__u64__sat_add`, instantiating the common body at w = 64. -/
def wuffs_base__u64__sat_add (x y : Nat) : Nat := sat_add_gen 64 x y

/-- C: `wuffs_base__u8__sat_sub`, instantiating the common body at w = 8. -/
def wuffs_base__u8__sat_sub (x y : Nat) : Nat := sat_sub_gen 8 x y

/-- C: `wuffs_base__u16__sat_sub`, instantiating the common body at w = 16. -/
def wuffs_base__u16__sat_sub (x y : Nat) : Nat := sat_sub_gen 16 x y

/-- C: `wuffs_base__u32__sat_sub`, instantiating the common body at w = 32. -/
def wuffs_base__u32__sat_sub (x y : Nat) : Nat := sat_sub_gen 32 x y

/-- C: `wuffs_base__u64__sat_sub`, instantiating the common body at w = 64. -/
def wuffs_base__u64__sat_sub (x y : Nat) : Nat := sat_sub_gen 64 x y

/-- Any `n < 2 ^ w` ORed with the all-ones mask `2 ^ w - 1` gives the mask. -/
theorem or_two_pow_sub_one_of_lt {n w : Nat} (h : n < 2 ^ w) :
    n ||| (2 ^ w - 1) = 2 ^ w - 1 := by
  apply Nat.eq_of_testBit_eq
  intro i
  rw [Nat.testBit_or, Nat.testBit_two_pow_sub_one]
  by_cases hi : i < w
  · simp [hi]
  · have hb : n.testBit i = false :=
      Nat.testBit_eq_false_of_lt
        (lt_of_lt_of_le h (Nat.pow_le_pow_right (by norm_num) (Nat.le_of_not_lt hi)))
    simp [hi, hb]

/-- The branchless saturating addition equals the clamped exact sum. -/
theorem sat_add_gen_eq (w x y : Nat) (hx : x < 2 ^ w) (hy : y < 2 ^ w) :
    sat_add_gen w x y = min (x + y) (2 ^ w - 1) := by
  simp only [sat_add_gen]
  by_cases h : x + y < 2 ^ w
  · rw [Nat.mod_eq_of_lt h, if_neg (by omega), Nat.or_zero]
    omega
  · have hmod : (x + y) % 2 ^ w = x + y - 2 ^ w := by
      rw [Nat.mod_eq_sub_mod (by omega), Nat.mod_eq_of_lt (by omega)]
    rw [hmod, if_pos (by omega), or_two_pow_sub_one_of_lt (by omega)]
    omega

/-- The branchless saturating subtraction equals the truncated difference. -/
theorem sat_sub_gen_eq (w x y : Nat) (hx : x < 2 ^ w) (hy : y < 2 ^ w) :
    sat_sub_gen w x y = x - y := by
  simp only [sat_sub_gen]
  by_cases h : y ≤ x
  · have e : x + (2 ^ w - y) = (x - y) + 2 ^ w := by omega
    rw [e, Nat.add_mod_right, Nat.mod_eq_of_lt (by omega), if_pos (by omega),
      Nat.and_pow_two_sub_one_of_lt_two_pow (by omega)]
  · have hres : (x + (2 ^ w - y)) % 2 ^ w = x + (2 ^ w - y) :=
      Nat.mod_eq_of_lt (by omega)
    rw [hres, if_neg (by omega), Nat.and_zero]
    omega

/-- Largest value of `size_t`; `size_t` is modelled at the 64-bit word size
(the source requires the word size to be 32 or 64 bits). -/
def SIZE_MAX : Nat := 2 ^ 64 - 1

/-- C: `WUFFS_BASE__SLICE(T)`, a pointer plus an element count.  `ptr` is an
element-indexed address, so C pointer arithmetic on a `T*` is `Nat` addition.
All four fixed-width slice typedefs share this one shape. -/
structure wuffs_base__slice_u8 where
  ptr : Nat
  len : Nat
deriving DecidableEq

/-- C: `typedef WUFFS_BASE__SLICE(uint16_t) wuffs_base__slice_u16`. -/
abbrev wuffs_base__slice_u16 : Type := wuffs_base__slice_u8

/-- C: `typedef WUFFS_BASE__SLICE(uint32_t) wuffs_base__slice_u32`. -/
abbrev wuffs_base__slice_u32 : Type := wuffs_base__slice_u8

/-- C: `typedef WUFFS_BASE__SLICE(uint64_t) wuffs_base__slice_u64`. -/
abbrev wuffs_base__slice_u64 : Type := wuffs_base__slice_u8

/-- C: `wuffs_base__slice_u8__subslice_i` returns `s[i:]`, or the all-zero
empty slice if `i` is out of bounds. -/
def wuffs_base__slice_u8__subslice_i (s : wuffs_base__slice_u8) (i : Nat) :
    wuffs_base__slice_u8 :=
  if i ≤ SIZE_MAX ∧ i ≤ s.len then { ptr := s.ptr + i, len := s.len - i }
  else { ptr := 0, len := 0 }

/-- C: `wuffs_base__slice_u8__subslice_j` returns `s[:j]`, or the all-zero
empty slice if `j` is out of bounds. -/
def wuffs_base__slice_u8__subslice_j (s : wuffs_base__slice_u8) (j : Nat) :
    wuffs_base__slice_u8 :=
  if j ≤ SIZE_MAX ∧ j ≤ s.len then { ptr := s.ptr, len := j }
  else { ptr := 0, len := 0 }

/-- C: `wuffs_base__slice_u8__subslice_ij` returns `s[i:j]`, or the all-zero
empty slice if `i` or `j` is out of bounds. -/
def wuffs_base__slice_u8__subslice_ij (s : wuffs_base__slice_u8) (i j : Nat) :
    wuffs_base__slice_u8 :=
  if i ≤ j ∧ j ≤ SIZE_MAX ∧ j ≤ s.len then { ptr := s.ptr + i, len := j - i }
  else { ptr := 0, len := 0 }

/-- Modelled from the spec: `s[i:]` for u16 slices.  The source under src/
declares the `wuffs_base__slice_u16` typedef but not its subslice functions;
spec section 4.2 requires all four widths with semantics identical to the
8-bit version. -/
def wuffs_base__slice_u16__subslice_i (s : wuffs_base__slice_u16) (i : Nat) :
    wuffs_base__slice_u16 :=
  if i ≤ SIZE_MAX ∧ i ≤ s.len then { ptr := s.ptr + i, len := s.len - i }
  else { ptr := 0, len := 0 }

/-- Modelled from the spec: `s[:j]` for u16 slices (see
`wuffs_base__slice_u16__subslice_i`). -/
def wuffs_base__slice_u16__subslice_j (s : wuffs_base__slice_u16) (j : Nat) :
    wuffs_base__slice_u16 :=
  if j ≤ SIZE_MAX ∧ j ≤ s.len then { ptr := s.ptr, len := j }
  else { ptr := 0, len := 0 }

/-- Modelled from the spec: `s[i:j]` for u16 slices (see
`wuffs_base__slice_u16__subslice_i`). -/
def wuffs_base__slice_u16__subslice_ij (s : wuffs_base__slice_u16) (i j : Nat) :
    wuffs_base__slice_u16 :=
  if i ≤ j ∧ j ≤ SIZE_MAX ∧ j ≤ s.len then { ptr := s.ptr + i, len := j - i }
  else { ptr := 0, len := 0 }

/-- Modelled from the spec: `s[i:]` for u32 slices (see
`wuffs_base__slice_u16__subslice_i`). -/
def wuffs_base__slice_u32__subslice_i (s : wuffs_base__slice_u32) (i : Nat) :
    wuffs_base__slice_u32 :=
  if i ≤ SIZE_MAX ∧ i ≤ s.len then { ptr := s.ptr + i, len := s.len - i }
  else { ptr := 0, len := 0 }

/-- Modelled from the spec: `s[:j]` for u32 slices (see
`wuffs_base__slice_u16__subslice_i`). -/
def wuffs_base__slice_u32__subslice_j (s : wuffs_base__slice_u32) (j : Nat) :
    wuffs_base__slice_u32 :=
  if j ≤ SIZE_MAX ∧ j ≤ s.len then { ptr := s.ptr, len := j }
  else { ptr := 0, len := 0 }

/-- Modelled from the spec: `s[i:j]` for u32 slices (see
`wuffs_base__slice_u16__subslice_i`). -/
def wuffs_base__slice_u32__subslice_ij (s : wuffs_base__slice_u32) (i j : Nat) :
    wuffs_base__slice_u32 :=
  if i ≤ j ∧ j ≤ SIZE_MAX ∧ j ≤ s.len then { ptr := s.ptr + i, len := j - i }
  else { ptr := 0, len := 0 }

/-- Modelled from the spec: `s[i:]` for u64 slices (see
`wuffs_base__slice_u16__subslice_i`). -/
def wuffs_base__slice_u64__subslice_i (s : wuffs_base__slice_u64) (i : Nat) :
    wuffs_base__slice_u64 :=
  if i ≤ SIZE_MAX ∧ i ≤ s.len then { ptr := s.ptr + i, len := s.len - i }
  else { ptr := 0, len := 0 }

/-- Modelled from the spec: `s[:j]` for u64 slices (see
`wuffs_base__slice_u16__subslice_i`). -/
def wuffs_base__slice_u64__subslice_j (s : wuffs_base__slice_u64) (j : Nat) :
    wuffs_base__slice_u64 :=
  if j ≤ SIZE_MAX ∧ j ≤ s.len then { ptr := s.ptr, len := j }
  else { ptr := 0, len := 0 }

/-- Modelled from the spec: `s[i:j]` for u64 slices (see
`wuffs_base__slice_u16__subslice_i`). -/
def wuffs_base__slice_u64__subslice_ij (s : wuffs_base__slice_u64) (i j : Nat) :
    wuffs_base__slice_u64 :=
  if i ≤ j ∧ j ≤ SIZE_MAX ∧ j ≤ s.len then { ptr := s.ptr + i, len := j - i }
  else { ptr := 0, len := 0 }

/-- C: `#define WUFFS_VERSION_MAJOR ((uint64_t)0)`. -/
def WUFFS_VERSION_MAJOR : Nat := 0

/-- C: `#define WUFFS_VERSION_MINOR ((uint64_t)0)`. -/
def WUFFS_VERSION_MINOR : Nat := 0

/-- C: `#define WUFFS_VERSION_PATCH ((uint64_t)0)`. -/
def WUFFS_VERSION_PATCH : Nat := 0

/-- C: `#define WUFFS_VERSION ((uint64_t)0)`. -/
def WUFFS_VERSION : Nat := 0

/-- C: `#define WUFFS_VERSION_EXTENSION ""`. -/
def WUFFS_VERSION_EXTENSION : String := ""

/-- C: `#define WUFFS_VERSION_STRING "0.0.0"`. -/
def WUFFS_VERSION_STRING : String := "0.0.0"

/-- The packed version layout documented in the source: the major number is
the high 32 bits, the minor number is the middle 16 bits, the patch number
is the low 16 bits. -/
def wuffs_version_pack (major minor patch : Nat) : Nat :=
  (major <<< 32) ||| (minor <<< 16) ||| patch

/-- The composition formula in the claim's words:
`(major << 48) | (minor << 16) | patch`. -/
def claimed_version_pack (major minor patch : Nat) : Nat :=
  (major <<< 48) ||| (minor <<< 16) ||| patch

/-- The packed layout as plain arithmetic, for field bounds. -/
theorem wuffs_version_pack_eq (major minor patch : Nat)
    (hminor : minor < 2 ^ 16) (hpatch : patch < 2 ^ 16) :
    wuffs_version_pack major minor patch =
      major * 2 ^ 32 + minor * 2 ^ 16 + patch := by
  have h1 : minor * 2 ^ 16 + patch = minor * 2 ^ 16 ||| patch := by
    simpa [Nat.mul_comm] using Nat.mul_add_lt_is_or hpatch minor
  have hmp : minor * 2 ^ 16 + patch < 2 ^ 32 := by
    calc minor * 2 ^ 16 + patch < minor * 2 ^ 16 + 2 ^ 16 := by omega
    _ = (minor + 1) * 2 ^ 16 := by ring
    _ ≤ 2 ^ 16 * 2 ^ 16 := Nat.mul_le_mul_right _ hminor
    _ = 2 ^ 32 := by norm_num
  have h2 : major * 2 ^ 32 + (minor * 2 ^ 16 + patch) =
      major * 2 ^ 32 ||| (minor * 2 ^ 16 + patch) := by
    simpa [Nat.mul_comm] using Nat.mul_add_lt_is_or hmp major
  unfold wuffs_version_pack
  rw [Nat.shiftLeft_eq, Nat.shiftLeft_eq, Nat.or_assoc, ← h1, ← h2]
  ring

/-- C1: for every width w in 8, 16, 32, 64 and all unsigned w-bit x and y,
`sat_add(x, y)` equals `min(x + y, 2 ^ w - 1)` where the sum is computed
exactly; in particular the 8-bit `sat_add 250 10 = 255`. -/
theorem C1_sat_add_clamps :
    (∀ x y : Nat, x < 2 ^ 8 → y < 2 ^ 8 →
      wuffs_base__u8__sat_add x y = min (x + y) (2 ^ 8 - 1)) ∧
    (∀ x y : Nat, x < 2 ^ 16 → y < 2 ^ 16 →
      wuffs_base__u16__sat_add x y = min (x + y) (2 ^ 16 - 1)) ∧
    (∀ x y : Nat, x < 2 ^ 32 → y < 2 ^ 32 →
      wuffs_base__u32__sat_add x y = min (x + y) (2 ^ 32 - 1)) ∧
    (∀ x y : Nat, x < 2 ^ 64 → y < 2 ^ 64 →
      wuffs_base__u64__sat_add x y = min (x + y) (2 ^ 64 - 1)) ∧
    wuffs_base__u8__sat_add 250 10 = 255 :=
  ⟨fun x y hx hy => sat_add_gen_eq 8 x y hx hy,
   fun x y hx hy => sat_add_gen_eq 16 x y hx hy,
   fun x y hx hy => sat_add_gen_eq 32 x y hx hy,
   fun x y hx hy => sat_add_gen_eq 64 x y hx hy,
   by decide⟩

/-- Witness for C1 at the 8-bit example input 250, 10. -/
theorem C1_sat_add_clamps_witness :
    wuffs_base__u8__sat_add 250 10 = min (250 + 10) (2 ^ 8 - 1) :=
  C1_sat_add_clamps.1 250 10 (by decide) (by decide)

/-- C2: for every width w in 8, 16, 32, 64 and all unsigned w-bit x and y,
`sat_sub(x, y)` equals `max(x - y, 0)` where the difference is computed
exactly (over the integers); in particular the 8-bit `sat_sub 5 10 = 0`. -/
theorem C2_sat_sub_clamps :
    (∀ x y : Nat, x < 2 ^ 8 → y < 2 ^ 8 →
      (wuffs_base__u8__sat_sub x y : Int) = max ((x : Int) - (y : Int)) 0) ∧
    (∀ x y : Nat, x < 2 ^ 16 → y < 2 ^ 16 →
      (wuffs_base__u16__sat_sub x y : Int) = max ((x : Int) - (y : Int)) 0) ∧
    (∀ x y : Nat, x < 2 ^ 32 → y < 2 ^ 32 →
      (wuffs_base__u32__sat_sub x y : Int) = max ((x : Int) - (y : Int)) 0) ∧
    (∀ x y : Nat, x < 2 ^ 64 → y < 2 ^ 64 →
      (wuffs_base__u64__sat_sub x y : Int) = max ((x : Int) - (y : Int)) 0) ∧
    wuffs_base__u8__sat_sub 5 10 = 0 := by
  refine ⟨?_, ?_, ?_, ?_, by decide⟩ <;> intro x y hx hy
  · rw [show wuffs_base__u8__sat_sub x y = x - y from sat_sub_gen_eq 8 x y hx hy]
    omega
  · rw [show wuffs_base__u16__sat_sub x y = x - y from sat_sub_gen_eq 16 x y hx hy]
    omega
  · rw [show wuffs_base__u32__sat_sub x y = x - y from sat_sub_gen_eq 32 x y hx hy]
    omega
  · rw [show wuffs_base__u64__sat_sub x y = x - y from sat_sub_gen_eq 64 x y hx hy]
    omega

/-- Witness for C2 at the 8-bit example input 5, 10. -/
theorem C2_sat_sub_clamps_witness :
    (wuffs_base__u8__sat_sub 5 10 : Int) = max (((5 : Nat) : Int) - ((10 : Nat) : Int)) 0 :=
  C2_sat_sub_clamps.1 5 10 (by decide) (by decide)

/-- C3: for every status value (NULL or a string), exactly one of
`is_ok`, `is_warning`, `is_suspension`, `is_error` is true. -/
theorem C3_status_partition (z : wuffs_base__status) :
    (wuffs_base__status__is_ok z).toNat + (wuffs_base__status__is_warning z).toNat +
      (wuffs_base__status__is_suspension z).toNat +
      (wuffs_base__status__is_error z).toNat = 1 := by
  match z with
  | none => rfl
  | some s =>
    simp only [wuffs_base__status__is_ok, wuffs_base__status__is_warning,
      wuffs_base__status__is_suspension, wuffs_base__status__is_error]
    cases h1 : (cstr_first s == '$') with
    | false =>
      cases h2 : (cstr_first s == '?') with
      | false => simp
      | true => simp
    | true =>
      cases h2 : (cstr_first s == '?') with
      | false => simp
      | true => exact absurd ((eq_of_beq h1).symm.trans (eq_of_beq h2)) (by decide)

/-- C4: for every status value, `is_complete` agrees with
`is_ok || is_warning`. -/
theorem C4_is_complete_eq (z : wuffs_base__status) :
    wuffs_base__status__is_complete z =
      (wuffs_base__status__is_ok z || wuffs_base__status__is_warning z) := by
  match z with
  | none => rfl
  | some s => rfl

/-- C5: out-of-range subslice arguments never fault or report an error:
`s[:j]` with `j > s.len`, `s[i:]` with `i > s.len`, and `s[i:j]` with
`i > j` or `j > s.len` all return the all-zero canonical empty slice. -/
theorem C5_out_of_range_empty :
    (∀ (s : wuffs_base__slice_u8) (j : Nat), s.len < j →
      wuffs_base__slice_u8__subslice_j s j = { ptr := 0, len := 0 }) ∧
    (∀ (s : wuffs_base__slice_u8) (i : Nat), s.len < i →
      wuffs_base__slice_u8__subslice_i s i = { ptr := 0, len := 0 }) ∧
    (∀ (s : wuffs_base__slice_u8) (i j : Nat), j < i ∨ s.len < j →
      wuffs_base__slice_u8__subslice_ij s i j = { ptr := 0, len := 0 }) := by
  refine ⟨?_, ?_, ?_⟩
  · intro s j h
    unfold wuffs_base__slice_u8__subslice_j
    split
    · next hc => exact absurd hc.2 (by omega)
    · rfl
  · intro s i h
    unfold wuffs_base__slice_u8__subslice_i
    split
    · next hc => exact absurd hc.2 (by omega)
    · rfl
  · intro s i j h
    unfold wuffs_base__slice_u8__subslice_ij
    split
    · next hc => exact absurd h (by push_neg; omega)
    · rfl

/-- Witness for C5: a slice of length 2, indices 3 and the pair 5, 3. -/
theorem C5_out_of_range_empty_witness :
    wuffs_base__slice_u8__subslice_j { ptr := 0, len := 2 } 3 = { ptr := 0, len := 0 } ∧
    wuffs_base__slice_u8__subslice_i { ptr := 0, len := 2 } 3 = { ptr := 0, len := 0 } ∧
    wuffs_base__slice_u8__subslice_ij { ptr := 0, len := 2 } 5 3 = { ptr := 0, len := 0 } :=
  ⟨C5_out_of_range_empty.1 { ptr := 0, len := 2 } 3 (by decide),
   C5_out_of_range_empty.2.1 { ptr := 0, len := 2 } 3 (by decide),
   C5_out_of_range_empty.2.2 { ptr := 0, len := 2 } 5 3 (Or.inl (by decide))⟩

/-- C6: for every well-formed slice (its length fits in `size_t`),
`s[:s.len] = s` and `s[0:] = s`, preserving both the base address and the
count. -/
theorem C6_identity_subslices (s : wuffs_base__slice_u8) (h : s.len ≤ SIZE_MAX) :
    wuffs_base__slice_u8__subslice_j s s.len = s ∧
    wuffs_base__slice_u8__subslice_i s 0 = s := by
  constructor
  · unfold wuffs_base__slice_u8__subslice_j
    rw [if_pos ⟨h, Nat.le_refl _⟩]
  · unfold wuffs_base__slice_u8__subslice_i
    rw [if_pos ⟨Nat.zero_le _, Nat.zero_le _⟩]
    simp only [Nat.add_zero, Nat.sub_zero]

/-- Witness for C6 at the slice with base address 7 and length 3. -/
theorem C6_identity_subslices_witness :
    wuffs_base__slice_u8__subslice_j { ptr := 7, len := 3 } 3 = { ptr := 7, len := 3 } ∧
    wuffs_base__slice_u8__subslice_i { ptr := 7, len := 3 } 0 = { ptr := 7, len := 3 } :=
  C6_identity_subslices { ptr := 7, len := 3 } (by decide)

/-- C7: on a slice of length 10, `s[3:7]` has count 4 and base address
advanced by 3 elements, and re-slicing that result with `[0:4]` returns it
unchanged. -/
theorem C7_range_scenario (p : Nat) :
    wuffs_base__slice_u8__subslice_ij { ptr := p, len := 10 } 3 7 =
      { ptr := p + 3, len := 4 } ∧
    wuffs_base__slice_u8__subslice_ij
        (wuffs_base__slice_u8__subslice_ij { ptr := p, len := 10 } 3 7) 0 4 =
      wuffs_base__slice_u8__subslice_ij { ptr := p, len := 10 } 3 7 :=
  ⟨rfl, rfl⟩

/-- C8: the u16, u32 and u64 subslice operations exist and compute results
identical (same resulting offset and count, same clamping) to the u8
versions, for every slice and every pair of arguments. -/
theorem C8_all_widths_equivalent :
    (∀ (s : wuffs_base__slice_u8) (i : Nat),
      wuffs_base__slice_u16__subslice_i s i = wuffs_base__slice_u8__subslice_i s i ∧
      wuffs_base__slice_u32__subslice_i s i = wuffs_base__slice_u8__subslice_i s i ∧
      wuffs_base__slice_u64__subslice_i s i = wuffs_base__slice_u8__subslice_i s i) ∧
    (∀ (s : wuffs_base__slice_u8) (j : Nat),
      wuffs_base__slice_u16__subslice_j s j = wuffs_base__slice_u8__subslice_j s j ∧
      wuffs_base__slice_u32__subslice_j s j = wuffs_base__slice_u8__subslice_j s j ∧
      wuffs_base__slice_u64__subslice_j s j = wuffs_base__slice_u8__subslice_j s j) ∧
    (∀ (s : wuffs_base__slice_u8) (i j : Nat),
      wuffs_base__slice_u16__subslice_ij s i j = wuffs_base__slice_u8__subslice_ij s i j ∧
      wuffs_base__slice_u32__subslice_ij s i j = wuffs_base__slice_u8__subslice_ij s i j ∧
      wuffs_base__slice_u64__subslice_ij s i j = wuffs_base__slice_u8__subslice_ij s i j) :=
  ⟨fun _ _ => ⟨rfl, rfl, rfl⟩, fun _ _ => ⟨rfl, rfl, rfl⟩,
   fun _ _ _ => ⟨rfl, rfl, rfl⟩⟩

/-- C10: every subslice result is contained in its receiver: it is either
the all-zero empty slice, or its base address is `s.ptr` plus an element
offset with `offset ≤ s.len` and `offset + count ≤ s.len`. -/
theorem C10_subslice_containment (s : wuffs_base__slice_u8) (i j : Nat) :
    (wuffs_base__slice_u8__subslice_i s i = { ptr := 0, len := 0 } ∨
      ∃ off ≤ s.len, (wuffs_base__slice_u8__subslice_i s i).ptr = s.ptr + off ∧
        off + (wuffs_base__slice_u8__subslice_i s i).len ≤ s.len) ∧
    (wuffs_base__slice_u8__subslice_j s j = { ptr := 0, len := 0 } ∨
      ∃ off ≤ s.len, (wuffs_base__slice_u8__subslice_j s j).ptr = s.ptr + off ∧
        off + (wuffs_base__slice_u8__subslice_j s j).len ≤ s.len) ∧
    (wuffs_base__slice_u8__subslice_ij s i j = { ptr := 0, len := 0 } ∨
      ∃ off ≤ s.len, (wuffs_base__slice_u8__subslice_ij s i j).ptr = s.ptr + off ∧
        off + (wuffs_base__slice_u8__subslice_ij s i j).len ≤ s.len) := by
  refine ⟨?_, ?_, ?_⟩
  · unfold wuffs_base__slice_u8__subslice_i
    split
    · next hc => exact Or.inr ⟨i, hc.2, rfl, by dsimp only; omega⟩
    · exact Or.inl rfl
  · unfold wuffs_base__slice_u8__subslice_j
    split
    · next hc => exact Or.inr ⟨0, Nat.zero_le _, rfl, by dsimp only; omega⟩
    · exact Or.inl rfl
  · unfold wuffs_base__slice_u8__subslice_ij
    split
    · next hc => exact Or.inr ⟨i, by omega, rfl, by dsimp only; omega⟩
    · exact Or.inl rfl

/-- C9 counterexample: the claim's formula `(major << 48) | (minor << 16) |
patch` does not put the major number in the high 32 bits; at major 1,
minor 0, patch 0 the high 32 bits hold 2 ^ 16, not 1, and the formula
disagrees with the documented layout. -/
theorem C9_claim_formula_wrong :
    claimed_version_pack 1 0 0 / 2 ^ 32 % 2 ^ 32 ≠ 1 ∧
    wuffs_version_pack 1 0 0 / 2 ^ 32 % 2 ^ 32 = 1 ∧
    claimed_version_pack 1 0 0 ≠ wuffs_version_pack 1 0 0 := by
  refine ⟨by decide, by decide, by decide⟩

/-- C9 (amended): the packed identifier is composed as
`(major << 32) | (minor << 16) | patch`, with major in the high 32 bits,
minor the next 16 and patch the low 16; the source constants are the
all-zero reserved sentinel, and packing them gives `WUFFS_VERSION = 0`. -/
theorem C9_version_packed_layout :
    (∀ major minor patch : Nat, major < 2 ^ 32 → minor < 2 ^ 16 → patch < 2 ^ 16 →
      wuffs_version_pack major minor patch / 2 ^ 32 % 2 ^ 32 = major ∧
      wuffs_version_pack major minor patch / 2 ^ 16 % 2 ^ 16 = minor ∧
      wuffs_version_pack major minor patch % 2 ^ 16 = patch) ∧
    WUFFS_VERSION =
      wuffs_version_pack WUFFS_VERSION_MAJOR WUFFS_VERSION_MINOR WUFFS_VERSION_PATCH ∧
    WUFFS_VERSION_MAJOR = 0 ∧ WUFFS_VERSION_MINOR = 0 ∧ WUFFS_VERSION_PATCH = 0 ∧
    WUFFS_VERSION = 0 := by
  refine ⟨?_, by decide, rfl, rfl, rfl, rfl⟩
  intro major minor patch hmajor hminor hpatch
  rw [wuffs_version_pack_eq major minor patch hminor hpatch]
  refine ⟨?_, ?_, ?_⟩ <;> omega

/-- Witness for C9 (amended) at major 3, minor 2, patch 1. -/
theorem C9_version_packed_layout_witness :
    wuffs_version_pack 3 2 1 / 2 ^ 32 % 2 ^ 32 = 3 ∧
    wuffs_version_pack 3 2 1 / 2 ^ 16 % 2 ^ 16 = 2 ∧
    wuffs_version_pack 3 2 1 % 2 ^ 16 = 1 :=
  C9_version_packed_layout.1 3 2 1 (by norm_num) (by norm_num) (by norm_num)

end Wuffs
